import Mathlib

/-!
Shallow embedding of `src/command_runner/test_files/example.py`.

The file defines a `main` entry point, an `add` function, three pytest-style
test functions, a `TestMath` class with three test methods, and a unittest
`TestAddition` class with two test methods.  Python integers are arbitrary
precision, so they are modelled by `Int`; Python true division `/` on these
inputs is exact, so it is modelled by division in `Rat`.  A Python `assert`
(and `unittest.assertEqual`) either succeeds or raises `AssertionError`,
modelled by `Except String Unit`.
-/

namespace ExamplePy

/-- `add(a, b)` from example.py: `return a + b`. -/
def add (a b : Int) : Int := a + b

/-- The lines printed by `main()` in example.py: the greeting, then
`2 + 3 = {result}` where `result = add(2, 3)`. -/
def mainLines : List String :=
  ["Hello from Python!", "2 + 3 = " ++ toString (add 2 3)]

/-- Python `assert cond` (and `unittest.assertEqual`, which asserts equality):
succeeds when the condition holds, otherwise raises `AssertionError`. -/
def pyAssert (b : Bool) : Except String Unit :=
  if b then Except.ok () else Except.error "AssertionError"

/-- `test_addition` from example.py: `assert add(2, 2) == 4`. -/
def test_addition : Except String Unit :=
  pyAssert (add 2 2 == 4)

/-- `test_subtraction` from example.py: `assert 5 - 3 == 2`. -/
def test_subtraction : Except String Unit :=
  pyAssert ((5 - 3 : Int) == 2)

namespace TestMath

/-- `TestMath.test_multiplication`: `assert 3 * 4 == 12`. -/
def test_multiplication : Except String Unit :=
  pyAssert ((3 * 4 : Int) == 12)

/-- `TestMath.test_division`: `assert 10 / 2 == 5`.  Python `/` is true
division; on these operands it is exact, modelled in `Rat`. -/
def test_division : Except String Unit :=
  pyAssert ((10 / 2 : Rat) == 5)

/-- `TestMath.test_add_negative`: `assert add(-1, 1) == 0`. -/
def test_add_negative : Except String Unit :=
  pyAssert (add (-1) 1 == 0)

end TestMath

/-- `test_with_pytest_style` from example.py:
`given = [1, 2, 3]; expected = 6; assert sum(given) == expected`. -/
def test_with_pytest_style : Except String Unit :=
  let given : List Int := [1, 2, 3]
  let expected : Int := 6
  pyAssert (given.sum == expected)

namespace TestAddition

/-- `TestAddition.test_positive_numbers`: `self.assertEqual(add(3, 4), 7)`. -/
def test_positive_numbers : Except String Unit :=
  pyAssert (add 3 4 == 7)

/-- `TestAddition.test_negative_numbers`: `self.assertEqual(add(-3, -4), -7)`. -/
def test_negative_numbers : Except String Unit :=
  pyAssert (add (-3) (-4) == -7)

end TestAddition

/-- The results of every test function and test method in example.py, in
source order. -/
def testResults : List (Except String Unit) :=
  [test_addition, test_subtraction,
   TestMath.test_multiplication, TestMath.test_division,
   TestMath.test_add_negative,
   test_with_pytest_style,
   TestAddition.test_positive_numbers, TestAddition.test_negative_numbers]

/-- The condition asserted by `TestMath.test_division` evaluates to true:
`10 / 2` in `Rat` equals `5`. -/
theorem division_cond_true : ((10 / 2 : Rat) == 5) = true := by
  rw [beq_iff_eq]
  norm_num

/-- `TestMath.test_division` succeeds. -/
theorem test_division_ok : TestMath.test_division = Except.ok () := by
  simp [TestMath.test_division, pyAssert, division_cond_true]

/-- Every test result in the file is `ok`. -/
theorem testResults_all_ok : testResults = List.replicate 8 (Except.ok ()) := by
  show [test_addition, test_subtraction, TestMath.test_multiplication,
    TestMath.test_division, TestMath.test_add_negative, test_with_pytest_style,
    TestAddition.test_positive_numbers, TestAddition.test_negative_numbers]
      = List.replicate 8 (Except.ok ())
  rw [test_division_ok]
  rfl

/-- C1: for every pair of integer inputs, `add(a, b)` returns the arithmetic
sum `a + b`; it is a pure total function (no error, no side effect in the
embedding). -/
theorem add_returns_sum (a b : Int) : add a b = a + b := rfl

/-- Witness for `add_returns_sum` at concrete inputs. -/
theorem add_returns_sum_witness : add 2 3 = 2 + 3 :=
  add_returns_sum 2 3

/-- C2: `main()` prints exactly two lines, `Hello from Python!` followed by
`2 + 3 = 5`, in that order. -/
theorem main_prints_two_lines :
    mainLines = ["Hello from Python!", "2 + 3 = 5"] ∧ mainLines.length = 2 := by
  constructor <;> rfl

/-- C3: the five addition equalities of the spec hold for `add` as defined,
so every test assertion over `add` succeeds. -/
theorem add_equalities_hold :
    add 2 3 = 5 ∧ add 2 2 = 4 ∧ add (-1) 1 = 0 ∧ add 3 4 = 7 ∧
      add (-3) (-4) = -7 ∧
      test_addition = Except.ok () ∧
      TestMath.test_add_negative = Except.ok () ∧
      TestAddition.test_positive_numbers = Except.ok () ∧
      TestAddition.test_negative_numbers = Except.ok () := by
  refine ⟨rfl, rfl, rfl, rfl, rfl, ?_, ?_, ?_, ?_⟩ <;> rfl

/-- C4: every test function and test method completes without raising:
each asserted equality (including `5 - 3 == 2` and `3 * 4 == 12`) is true,
so every test result is `ok`. -/
theorem all_tests_pass :
    (5 - 3 : Int) = 2 ∧ (3 * 4 : Int) = 12 ∧
      testResults = List.replicate 8 (Except.ok ()) :=
  ⟨rfl, rfl, testResults_all_ok⟩

/-- C5: a test raises if and only if its asserted condition is false; the
only possible failure is `AssertionError` (no recovery, no other failure
kind), and every test in the file is a single such assertion, all of which
pass. -/
theorem test_raises_iff_condition_false :
    (∀ b : Bool, (∃ e, pyAssert b = Except.error e) ↔ b = false) ∧
    (∀ b : Bool, pyAssert b = Except.ok () ∨
      pyAssert b = Except.error "AssertionError") ∧
    testResults = List.replicate 8 (Except.ok ()) := by
  refine ⟨?_, ?_, ?_⟩
  · intro b
    cases b <;> simp [pyAssert]
  · intro b
    cases b <;> simp [pyAssert]
  · exact testResults_all_ok

/-- C6: the division test passes: `10 / 2` evaluates exactly to `5` (zero
remainder, no rounding), so `test_division`'s assertion holds. -/
theorem division_test_passes :
    (10 / 2 : Rat) = 5 ∧ (10 : Int) % 2 = 0 ∧
      TestMath.test_division = Except.ok () :=
  ⟨by norm_num, rfl, test_division_ok⟩

/-- C7: the sum of `[1, 2, 3]` equals `6`, so `test_with_pytest_style`'s
assertion `sum(given) == expected` holds. -/
theorem pytest_style_sum_holds :
    ([1, 2, 3] : List Int).sum = 6 ∧
      test_with_pytest_style = Except.ok () := by
  constructor <;> rfl

/-- C8: `add` is commutative: for all integer inputs `a` and `b`,
`add(a, b) = add(b, a)`. -/
theorem add_comm_holds (a b : Int) : add a b = add b a :=
  Int.add_comm a b

/-- Witness for `add_comm_holds` at concrete inputs. -/
theorem add_comm_holds_witness : add 2 3 = add 3 2 :=
  add_comm_holds 2 3

/-- C9: every function in the file is total: `add` yields a value on every
input, `mainLines` is a value, and each test result is a value. -/
theorem all_functions_total :
    (∀ a b : Int, ∃ r : Int, add a b = r) ∧
    (∃ ls : List String, mainLines = ls) ∧
    (∃ rs : List (Except String Unit), testResults = rs) :=
  ⟨fun a b => ⟨a + b, rfl⟩, ⟨_, rfl⟩, ⟨_, rfl⟩⟩

/-- C10: `add` is deterministic: equal inputs give equal outputs, and
consequently `main` produces the same fixed printed output on every run. -/
theorem add_deterministic :
    (∀ a b a2 b2 : Int, a = a2 → b = b2 → add a b = add a2 b2) ∧
    mainLines = ["Hello from Python!", "2 + 3 = 5"] := by
  constructor
  · intro a b a2 b2 ha hb
    rw [ha, hb]
  · rfl

/-- Witness for `add_deterministic` at concrete inputs with the equality
hypotheses discharged. -/
theorem add_deterministic_witness :
    (2 : Int) = 2 ∧ (3 : Int) = 3 ∧ add 2 3 = add 2 3 :=
  ⟨rfl, rfl, add_deterministic.1 2 3 2 3 rfl rfl⟩

end ExamplePy
